import Mathlib

/-
Verification of the reconciliation core of the NHS service-directory
synchronization fragment (src/application/event_processor/dos.py).

The embedding models the dynamically typed Python values flowing through the
comparison engine as an inductive `Value` type; Python's `str()` conversion is
`pyStr`, a Python `dict` is an insertion-ordered association list, and the
database cursor is a state record tracking the queries executed against the
backing store.
-/

set_option autoImplicit false

namespace DosService

/-- A dynamically typed Python value as it occurs in a directory row or in an
NHS entity attribute: the `None` singleton, a text value, or an integer. -/
inductive Value where
  | vnone
  | str (s : String)
  | int (n : Int)
deriving DecidableEq

/-- Python `str()` conversion applied to a `Value`: `None` renders as the text
`None`, strings render as themselves, integers in decimal. -/
def pyStr : Value → String
  | Value.vnone => "None"
  | Value.str s => s
  | Value.int n => toString n

/-- Python slicing `s[0:n]` on a string: the first `n` characters, truncated
to whatever is available when the string is shorter, never an error. -/
def pySlice (s : String) (n : Nat) : String :=
  String.mk (s.data.take n)

/-- A Python `dict` used as a change request: an insertion-ordered list of
key/value pairs with pairwise distinct keys. -/
abbrev ChangeSet := List (String × Value)

/-- Python `d[k] = v`: overwrite in place when the key is present, otherwise
append at the end (insertion order). -/
def dictSet (d : ChangeSet) (k : String) (v : Value) : ChangeSet :=
  if (List.any d fun p => p.1 == k) then
    List.map (fun p => if p.1 == k then (k, v) else p) d
  else
    d ++ [(k, v)]

/-- `compare_values` from dos.py: converts both values to strings and reports
whether they are NOT equal (True means a change is needed). -/
def compare_values (dos_value nhs_uk_value : Value) : Bool :=
  let not_equal := false
  if pyStr dos_value ≠ pyStr nhs_uk_value then true else not_equal

/-- `add_to_change_request_if_not_equal` from dos.py: stores the NHS UK value
under the key when the two values differ, otherwise leaves the dict alone. -/
def add_to_change_request_if_not_equal (changes : ChangeSet) (change_key : String)
    (dos_value nhs_uk_value : Value) : ChangeSet :=
  if compare_values dos_value nhs_uk_value then
    dictSet changes change_key nhs_uk_value
  else
    changes

/-- The 19 columns selected from the services table, in the order
`DoSService.db_columns` lists them in dos.py. -/
def db_columns : List String :=
  ["id", "uid", "name", "odscode", "address", "town", "postcode", "web",
   "email", "fax", "nonpublicphone", "typeid", "parentid", "subregionid",
   "statusid", "createdtime", "modifiedtime", "publicphone", "publicname"]

/-- A `DoSService` record: one attribute per entry of `db_columns`, populated
positionally from a database cursor row. -/
structure DoSService where
  id : Value
  uid : Value
  name : Value
  odscode : Value
  address : Value
  town : Value
  postcode : Value
  web : Value
  email : Value
  fax : Value
  nonpublicphone : Value
  typeid : Value
  parentid : Value
  subregionid : Value
  statusid : Value
  createdtime : Value
  modifiedtime : Value
  publicphone : Value
  publicname : Value
deriving DecidableEq

/-- `DoSService.__init__` from dos.py: reads `db_cursor_row[i]` for each of the
19 columns in order. A row with fewer than 19 entries makes the constructor
fail (Python raises IndexError); entries beyond the 19th are ignored. -/
def DoSService.ofRow : List Value → Option DoSService
  | a0 :: a1 :: a2 :: a3 :: a4 :: a5 :: a6 :: a7 :: a8 :: a9 :: a10 :: a11 ::
      a12 :: a13 :: a14 :: a15 :: a16 :: a17 :: a18 :: _ =>
    some ⟨a0, a1, a2, a3, a4, a5, a6, a7, a8, a9, a10, a11, a12, a13, a14,
      a15, a16, a17, a18⟩
  | _ => Option.none

/-- Modelled from the spec: the Authoritative Entity (§3) is externally
supplied by the `nhs` module, which is not part of this source tree. Only the
four attributes that `DoSService.get_changes` reads are modelled. -/
structure NHSEntity where
  Website : Value
  Postcode : Value
  Phone : Value
  OrganisationName : Value
deriving DecidableEq

/-- `DoSService.ods5` from dos.py: `self.odscode[0:5]`, the first five
characters of the identifier code. Slicing is only defined on a text value
(a non-string identifier would be a Python TypeError, modelled as `none`). -/
def DoSService.ods5 (self : DoSService) : Option String :=
  match self.odscode with
  | Value.str s => some (pySlice s 5)
  | _ => Option.none

/-- `DoSService.get_changes` from dos.py: the four tracked field comparisons,
in the fixed order website, postcode, publicphone, publicname. -/
def DoSService.get_changes (self : DoSService) (nhs_entity : NHSEntity) : ChangeSet :=
  let changes : ChangeSet := []
  let changes := add_to_change_request_if_not_equal changes "website" self.web nhs_entity.Website
  let changes := add_to_change_request_if_not_equal changes "postcode" self.postcode nhs_entity.Postcode
  let changes := add_to_change_request_if_not_equal changes "publicphone" self.publicphone nhs_entity.Phone
  let changes := add_to_change_request_if_not_equal changes "publicname" self.publicname nhs_entity.OrganisationName
  changes

/-- The keys of a change set, in insertion order. -/
def ChangeSet.keys (d : ChangeSet) : List String :=
  List.map Prod.fst d

/-- The SQL text built on line 149 of dos.py: the joined column list and the
first five characters of the ODS code interpolated directly into a LIKE
pattern between single quotes. -/
def sql_command (odscode : String) : String :=
  "SELECT " ++ String.intercalate ", " db_columns ++
    " FROM services WHERE odscode LIKE \x27" ++ pySlice odscode 5 ++ "%\x27"

/-- The database cursor: the queries executed against the store so far and the
rows the most recent query returned. -/
structure Cursor where
  executed : List String
  results : List (List Value)
deriving DecidableEq

/-- A fresh cursor as handed out by the connection. -/
def Cursor.fresh : Cursor := ⟨[], []⟩

/-- `cursor.execute(sql)`: records the query and loads the rows the gateway
returns for it. The gateway function abstracts the backing relational store. -/
def Cursor.execute (gw : String → List (List Value)) (c : Cursor) (q : String) : Cursor :=
  ⟨c.executed ++ [q], gw q⟩

/-- `cursor.fetchall()`: the rows of the most recent query. -/
def Cursor.fetchall (c : Cursor) : List (List Value) :=
  c.results

/-- `get_matching_dos_services` from dos.py: builds the SQL command from the
ODS code, executes it once on a fresh cursor, and materializes every returned
row into a `DoSService`. Returns the final cursor state together with the
constructed services. -/
def get_matching_dos_services (gw : String → List (List Value)) (odscode : String) :
    Cursor × List (Option DoSService) :=
  let cmd := sql_command odscode
  let c := Cursor.execute gw Cursor.fresh cmd
  let services := List.map DoSService.ofRow (Cursor.fetchall c)
  (c, services)

/-- A candidate service whose four tracked values are the given ones; the
remaining 15 attributes are fixed well-formed row values. -/
def mkSvc (web postcode publicphone publicname : Value) : DoSService :=
  ⟨Value.str "1", Value.str "u", Value.str "nm", Value.str "ODS12", Value.str "addr",
   Value.str "town", postcode, web, Value.str "e", Value.str "fx", Value.str "np",
   Value.int 13, Value.str "p", Value.str "s", Value.int 1, Value.str "t1",
   Value.str "t2", publicphone, publicname⟩

/-- The candidate of the end-to-end scenario in §8 of the spec. -/
def svc9 : DoSService :=
  mkSvc (Value.str "oldsite.com") (Value.str "AB1 2CD") (Value.str "01234") (Value.str "Old Pharmacy")

/-- The entity of the end-to-end scenario in §8 of the spec. -/
def ent9 : NHSEntity :=
  ⟨Value.str "newsite.com", Value.str "AB1 2CD", Value.str "01234", Value.str "New Pharmacy"⟩

/-- Candidate and entity agreeing on all four tracked fields. -/
def svcAllEq : DoSService :=
  mkSvc (Value.str "w") (Value.str "p") (Value.str "ph") (Value.str "n")

/-- Entity matching `svcAllEq` on all four tracked fields. -/
def entAllEq : NHSEntity :=
  ⟨Value.str "w", Value.str "p", Value.str "ph", Value.str "n"⟩

/-- Candidate differing from `entOneDiff` in the website field only. -/
def svcOneDiff : DoSService :=
  mkSvc (Value.str "old") (Value.str "P1") (Value.str "123") (Value.str "Nm")

/-- Entity differing from `svcOneDiff` in the website field only. -/
def entOneDiff : NHSEntity :=
  ⟨Value.str "new", Value.str "P1", Value.str "123", Value.str "Nm"⟩

/-- Candidate with an absent (None) website value. -/
def svcNoneWeb : DoSService :=
  mkSvc Value.vnone (Value.str "P1") (Value.str "123") (Value.str "Nm")

/-- Entity whose website value is the literal text None. -/
def entNoneWeb : NHSEntity :=
  ⟨Value.str "None", Value.str "P2", Value.str "456", Value.str "Nm2"⟩

/-- A full 19-column row of well-formed values. -/
def rowFull : List Value :=
  List.replicate 19 (Value.str "X")

/-- A sample entity for the totality witness. -/
def entSample : NHSEntity :=
  ⟨Value.str "a", Value.str "b", Value.str "c", Value.str "d"⟩

theorem compare_values_true_iff (d n : Value) :
    compare_values d n = true ↔ pyStr d ≠ pyStr n := by
  simp [compare_values]

theorem compare_values_false_iff (d n : Value) :
    compare_values d n = false ↔ pyStr d = pyStr n := by
  simp [compare_values]

theorem get_changes_eq (svc : DoSService) (ent : NHSEntity) :
    svc.get_changes ent =
      (if compare_values svc.web ent.Website then [("website", ent.Website)] else []) ++
      (if compare_values svc.postcode ent.Postcode then [("postcode", ent.Postcode)] else []) ++
      (if compare_values svc.publicphone ent.Phone then [("publicphone", ent.Phone)] else []) ++
      (if compare_values svc.publicname ent.OrganisationName then [("publicname", ent.OrganisationName)] else []) := by
  cases hw : compare_values svc.web ent.Website <;>
  cases hp : compare_values svc.postcode ent.Postcode <;>
  cases hf : compare_values svc.publicphone ent.Phone <;>
  cases hn : compare_values svc.publicname ent.OrganisationName <;>
    simp [DoSService.get_changes, add_to_change_request_if_not_equal, dictSet, hw, hp, hf, hn]

theorem mem_keys_iff (svc : DoSService) (ent : NHSEntity) :
    ("website" ∈ ChangeSet.keys (svc.get_changes ent) ↔ pyStr svc.web ≠ pyStr ent.Website) ∧
    ("postcode" ∈ ChangeSet.keys (svc.get_changes ent) ↔ pyStr svc.postcode ≠ pyStr ent.Postcode) ∧
    ("publicphone" ∈ ChangeSet.keys (svc.get_changes ent) ↔ pyStr svc.publicphone ≠ pyStr ent.Phone) ∧
    ("publicname" ∈ ChangeSet.keys (svc.get_changes ent) ↔ pyStr svc.publicname ≠ pyStr ent.OrganisationName) := by
  cases hw : compare_values svc.web ent.Website <;>
  cases hp : compare_values svc.postcode ent.Postcode <;>
  cases hf : compare_values svc.publicphone ent.Phone <;>
  cases hn : compare_values svc.publicname ent.OrganisationName <;>
    simp_all [get_changes_eq, ChangeSet.keys, compare_values_true_iff, compare_values_false_iff]

theorem get_changes_keys_subset (svc : DoSService) (ent : NHSEntity) :
    ∀ k ∈ ChangeSet.keys (svc.get_changes ent),
      k ∈ (["website", "postcode", "publicphone", "publicname"] : List String) := by
  intro k hk
  rw [get_changes_eq] at hk
  cases hw : compare_values svc.web ent.Website <;>
  cases hp : compare_values svc.postcode ent.Postcode <;>
  cases hf : compare_values svc.publicphone ent.Phone <;>
  cases hn : compare_values svc.publicname ent.OrganisationName <;>
    simp_all [ChangeSet.keys] <;> tauto

theorem get_changes_empty (svc : DoSService) (ent : NHSEntity)
    (h1 : pyStr svc.web = pyStr ent.Website) (h2 : pyStr svc.postcode = pyStr ent.Postcode)
    (h3 : pyStr svc.publicphone = pyStr ent.Phone)
    (h4 : pyStr svc.publicname = pyStr ent.OrganisationName) :
    svc.get_changes ent = [] := by
  rw [get_changes_eq]
  simp [compare_values, h1, h2, h3, h4]

theorem ofRow_isSome_of_length (row : List Value) (h : 19 ≤ row.length) :
    (DoSService.ofRow row).isSome := by
  iterate 19 (rcases row with _ | ⟨a, row⟩; · simp at h)
  rfl

/-- Claim C1: a key is present in the change set returned by get_changes for
one of the four tracked fields exactly when the string forms of the stored
value and the entity value differ; only the four tracked keys can occur; and
when all four tracked pairs agree textually the change set is empty. -/
theorem change_key_iff_values_differ (svc : DoSService) (ent : NHSEntity) :
    ("website" ∈ ChangeSet.keys (svc.get_changes ent) ↔ pyStr svc.web ≠ pyStr ent.Website) ∧
    ("postcode" ∈ ChangeSet.keys (svc.get_changes ent) ↔ pyStr svc.postcode ≠ pyStr ent.Postcode) ∧
    ("publicphone" ∈ ChangeSet.keys (svc.get_changes ent) ↔ pyStr svc.publicphone ≠ pyStr ent.Phone) ∧
    ("publicname" ∈ ChangeSet.keys (svc.get_changes ent) ↔ pyStr svc.publicname ≠ pyStr ent.OrganisationName) ∧
    (∀ k ∈ ChangeSet.keys (svc.get_changes ent),
      k ∈ (["website", "postcode", "publicphone", "publicname"] : List String)) ∧
    ((pyStr svc.web = pyStr ent.Website ∧ pyStr svc.postcode = pyStr ent.Postcode ∧
      pyStr svc.publicphone = pyStr ent.Phone ∧ pyStr svc.publicname = pyStr ent.OrganisationName) →
      svc.get_changes ent = []) := by
  obtain ⟨w, p, f, n⟩ := mem_keys_iff svc ent
  exact ⟨w, p, f, n, get_changes_keys_subset svc ent,
    fun ⟨h1, h2, h3, h4⟩ => get_changes_empty svc ent h1 h2 h3 h4⟩

theorem change_key_iff_values_differ_witness :
    svcAllEq.get_changes entAllEq = [] :=
  (change_key_iff_values_differ svcAllEq entAllEq).2.2.2.2.2 ⟨rfl, rfl, rfl, rfl⟩

/-- Claim C2: two values are considered equal exactly when their canonical
string forms are identical; there is no case folding, trimming, or semantic
equivalence, so the text 0 differs from the empty text, and a candidate name
Main Street differs from an entity name main street, which is then included
in the change set mapped to the entity value. -/
theorem comparison_is_exact_string_equality :
    (∀ d n : Value, compare_values d n = true ↔ pyStr d ≠ pyStr n) ∧
    compare_values (Value.str "0") (Value.str "") = true ∧
    compare_values (Value.str "Main Street") (Value.str "main street") = true ∧
    (mkSvc (Value.str "w") (Value.str "p") (Value.str "ph") (Value.str "Main Street")).get_changes
        ⟨Value.str "w", Value.str "p", Value.str "ph", Value.str "main street"⟩ =
      [("publicname", Value.str "main street")] :=
  ⟨compare_values_true_iff, by decide, by decide, by decide⟩

theorem comparison_is_exact_string_equality_witness :
    compare_values (Value.str "A") (Value.str "a") = true :=
  (comparison_is_exact_string_equality.1 (Value.str "A") (Value.str "a")).mpr (by decide)

/-- Claim C3: when exactly one of the four tracked field pairs differs in
string form, get_changes returns a one-entry change set mapping that field
key to the entity value for that field. -/
theorem single_difference_yields_single_change (svc : DoSService) (ent : NHSEntity) :
    (pyStr svc.web ≠ pyStr ent.Website → pyStr svc.postcode = pyStr ent.Postcode →
      pyStr svc.publicphone = pyStr ent.Phone → pyStr svc.publicname = pyStr ent.OrganisationName →
      svc.get_changes ent = [("website", ent.Website)]) ∧
    (pyStr svc.web = pyStr ent.Website → pyStr svc.postcode ≠ pyStr ent.Postcode →
      pyStr svc.publicphone = pyStr ent.Phone → pyStr svc.publicname = pyStr ent.OrganisationName →
      svc.get_changes ent = [("postcode", ent.Postcode)]) ∧
    (pyStr svc.web = pyStr ent.Website → pyStr svc.postcode = pyStr ent.Postcode →
      pyStr svc.publicphone ≠ pyStr ent.Phone → pyStr svc.publicname = pyStr ent.OrganisationName →
      svc.get_changes ent = [("publicphone", ent.Phone)]) ∧
    (pyStr svc.web = pyStr ent.Website → pyStr svc.postcode = pyStr ent.Postcode →
      pyStr svc.publicphone = pyStr ent.Phone → pyStr svc.publicname ≠ pyStr ent.OrganisationName →
      svc.get_changes ent = [("publicname", ent.OrganisationName)]) := by
  refine ⟨?_, ?_, ?_, ?_⟩ <;> intro h1 h2 h3 h4 <;> rw [get_changes_eq] <;>
    simp [compare_values, h1, h2, h3, h4]

theorem single_difference_yields_single_change_witness :
    svcOneDiff.get_changes entOneDiff = [("website", Value.str "new")] :=
  (single_difference_yields_single_change svcOneDiff entOneDiff).1
    (by decide) (by decide) (by decide) (by decide)

/-- Claim C4 fails on the code: the SQL text executed by
get_matching_dos_services embeds the first five characters of the input
identifier verbatim between single quotes — including a quote character in
the input — rather than passing it as a bound parameter. -/
theorem sql_command_embeds_input_text :
    pySlice "AB\x27CD-XYZ" 5 = "AB\x27CD" ∧
    sql_command "AB\x27CD-XYZ" =
      "SELECT id, uid, name, odscode, address, town, postcode, web, email, fax, nonpublicphone, typeid, parentid, subregionid, statusid, createdtime, modifiedtime, publicphone, publicname FROM services WHERE odscode LIKE \x27AB\x27CD%\x27" :=
  ⟨by decide, by rfl⟩

/-- Claim C5: the constructed query, and with it the whole invocation against
a fixed gateway, depends only on the first five characters of the input
identifier. -/
theorem query_depends_only_on_first_five (a b : String) (h : a.data.take 5 = b.data.take 5) :
    sql_command a = sql_command b ∧
    ∀ gw : String → List (List Value), get_matching_dos_services gw a = get_matching_dos_services gw b := by
  have hs : pySlice a 5 = pySlice b 5 := by unfold pySlice; rw [h]
  have hc : sql_command a = sql_command b := by unfold sql_command; rw [hs]
  exact ⟨hc, fun gw => by unfold get_matching_dos_services; rw [hc]⟩

theorem query_depends_only_on_first_five_witness :
    sql_command "ABCDE123" = sql_command "ABCDEXYZ" :=
  (query_depends_only_on_first_five "ABCDE123" "ABCDEXYZ" (by decide)).1

/-- Claim C6 (modelled past the connection slip on line 144 of dos.py): the
query and materialization logic of get_matching_dos_services executes exactly
one command against the store — the SQL text built from the identifier — and
maps every returned row through the DoSService constructor. -/
theorem one_query_per_invocation (gw : String → List (List Value)) (ods : String) :
    (get_matching_dos_services gw ods).1.executed = [sql_command ods] ∧
    (get_matching_dos_services gw ods).1.executed.length = 1 ∧
    (get_matching_dos_services gw ods).2 = List.map DoSService.ofRow (gw (sql_command ods)) ∧
    (get_matching_dos_services gw ods).2.length = (gw (sql_command ods)).length := by
  refine ⟨rfl, rfl, rfl, ?_⟩
  simp [get_matching_dos_services, Cursor.execute, Cursor.fetchall]

/-- Claim C7: an identifier shorter than five characters is used whole as the
match prefix — slicing truncates to the available characters, ods5 returns
them without error, and the invocation still executes its single query. -/
theorem short_identifier_fails_open (s : String) (h : s.length < 5) :
    pySlice s 5 = s ∧
    sql_command s = "SELECT " ++ String.intercalate ", " db_columns ++
      " FROM services WHERE odscode LIKE \x27" ++ s ++ "%\x27" ∧
    (∀ svc : DoSService, svc.odscode = Value.str s → svc.ods5 = some s) ∧
    ∀ gw : String → List (List Value),
      (get_matching_dos_services gw s).1.executed = [sql_command s] := by
  have hs : pySlice s 5 = s := by
    unfold pySlice
    rw [List.take_of_length_le (Nat.le_of_lt h)]
  refine ⟨hs, ?_, ?_, fun gw => rfl⟩
  · unfold sql_command
    rw [hs]
  · intro svc hsvc
    simp [DoSService.ods5, hsvc, hs]

theorem short_identifier_fails_open_witness :
    pySlice "AB" 5 = "AB" :=
  (short_identifier_fails_open "AB" (by decide)).1

/-- Claim C8: get_changes is total — a candidate constructed from a full
19-column row always exists, and against any entity the comparison returns a
change set drawn from the four tracked keys, with no failure branch. -/
theorem compute_changes_total (row : List Value) (h : row.length = 19) (ent : NHSEntity) :
    ∃ svc : DoSService, DoSService.ofRow row = some svc ∧
      ∀ k ∈ ChangeSet.keys (svc.get_changes ent),
        k ∈ (["website", "postcode", "publicphone", "publicname"] : List String) := by
  have hs : (DoSService.ofRow row).isSome := ofRow_isSome_of_length row (by omega)
  obtain ⟨svc, hsvc⟩ := Option.isSome_iff_exists.mp hs
  exact ⟨svc, hsvc, get_changes_keys_subset svc ent⟩

theorem compute_changes_total_witness :
    ∃ svc : DoSService, DoSService.ofRow rowFull = some svc ∧
      ∀ k ∈ ChangeSet.keys (svc.get_changes entSample),
        k ∈ (["website", "postcode", "publicphone", "publicname"] : List String) :=
  compute_changes_total rowFull (by decide) entSample

/-- Claim C9: the end-to-end scenario of §8 — candidate web oldsite.com,
postcode AB1 2CD, phone 01234, name Old Pharmacy against entity website
newsite.com, postcode AB1 2CD, phone 01234, name New Pharmacy — yields
exactly the change set with the website and publicname entries. -/
theorem end_to_end_change_set :
    svc9.get_changes ent9 =
      [("website", Value.str "newsite.com"), ("publicname", Value.str "New Pharmacy")] := by
  decide

/-- Claim C10: the canonical string form of an absent (None) value is the
text None, so an absent candidate value compares equal both to an absent
entity value and to the literal entity text None, and in either case the
tracked field is omitted from the change set. -/
theorem none_values_compare_equal (svc : DoSService) (ent : NHSEntity) :
    compare_values Value.vnone Value.vnone = false ∧
    compare_values Value.vnone (Value.str "None") = false ∧
    (svc.web = Value.vnone → (ent.Website = Value.vnone ∨ ent.Website = Value.str "None") →
      "website" ∉ ChangeSet.keys (svc.get_changes ent)) ∧
    (svc.postcode = Value.vnone → (ent.Postcode = Value.vnone ∨ ent.Postcode = Value.str "None") →
      "postcode" ∉ ChangeSet.keys (svc.get_changes ent)) ∧
    (svc.publicphone = Value.vnone → (ent.Phone = Value.vnone ∨ ent.Phone = Value.str "None") →
      "publicphone" ∉ ChangeSet.keys (svc.get_changes ent)) ∧
    (svc.publicname = Value.vnone → (ent.OrganisationName = Value.vnone ∨ ent.OrganisationName = Value.str "None") →
      "publicname" ∉ ChangeSet.keys (svc.get_changes ent)) := by
  obtain ⟨w, p, f, n⟩ := mem_keys_iff svc ent
  refine ⟨by decide, by decide, ?_, ?_, ?_, ?_⟩
  · intro hsvc hent
    rw [w, hsvc]
    rcases hent with h | h <;> rw [h] <;> simp [pyStr]
  · intro hsvc hent
    rw [p, hsvc]
    rcases hent with h | h <;> rw [h] <;> simp [pyStr]
  · intro hsvc hent
    rw [f, hsvc]
    rcases hent with h | h <;> rw [h] <;> simp [pyStr]
  · intro hsvc hent
    rw [n, hsvc]
    rcases hent with h | h <;> rw [h] <;> simp [pyStr]

theorem none_values_compare_equal_witness :
    "website" ∉ ChangeSet.keys (svcNoneWeb.get_changes entNoneWeb) :=
  (none_values_compare_equal svcNoneWeb entNoneWeb).2.2.1 rfl (Or.inr rfl)

end DosService
